import Mathlib

/-!
kubeClient: device-twin updates over MQTT

A shallow embedding of `src/kubeClient/kubeClient.go`.

* Go strings are Lean strings; `int64` members are integers (no arithmetic is
  done on them, they are only printed).
* A pointer member is an `Option` (`none` is the nil pointer); a Go map is an
  `Option` of its entries (`none` is the nil map).
* `encoding/json` is modelled for the struct types of the package: the key of a
  member and its `omitempty` option are computed from the member's raw struct
  tag, exactly as written in the source, by a model of `reflect.StructTag.Get`
  and of the tag handling of `encoding/json`.
* The package variables, the MQTT client and the log are an explicit `World`;
  every operation maps a world to an outcome (returned or panicked) and a world
  whose trace lists the effects in order.
-/

namespace KubeClient

/-! ## Struct tags -/

/-- A struct member as reflection sees it: its Go name and its raw tag. -/
structure StructField where
  Name : String
  Tag : String

/-- The characters `reflect.StructTag.Lookup` accepts in a tag key: above the
space, and none of colon, double quote, DEL. -/
def tagKeyChar (c : Char) : Bool :=
  decide (32 < c.toNat) && c != ':' && c != '"' && decide (c.toNat ≠ 127)

/-- Scan of a quoted tag value, the opening quote already consumed: the text up
to the closing quote and the text after it; a backslash skips one character. -/
def scanQuoted : List Char → Option (List Char × List Char)
  | [] => none
  | c :: rest =>
    if c = '"' then some ([], rest)
    else if c = '\\' then
      match rest with
      | [] => none
      | d :: rest2 => (scanQuoted rest2).map fun p => (c :: d :: p.1, p.2)
    else (scanQuoted rest).map fun p => (c :: p.1, p.2)

/-- Model of `strconv.Unquote` on the inside of a quoted tag value. Escape
sequences are not interpreted (no tag of the package has one): a value with a
backslash or a line break is rejected. -/
def unquote (q : List Char) : Option (List Char) :=
  if q.any (fun c => c = '\\' || c = '\n') then none else some q

/-- The loop of `reflect.StructTag.Lookup`: the tag is a sequence of
`key:"value"` pairs separated by spaces; any syntax error ends the search. -/
def lookupLoop (key : List Char) : Nat → List Char → Option (List Char)
  | 0, _ => none
  | fuel + 1, tag =>
    let tag1 := tag.dropWhile (fun c => c = ' ')
    let name := tag1.takeWhile tagKeyChar
    match tag1.dropWhile tagKeyChar with
    | c1 :: c2 :: rest =>
      if name.isEmpty || c1 != ':' || c2 != '"' then none
      else
        match scanQuoted rest with
        | none => none
        | some (q, rest2) =>
          if name = key then unquote q else lookupLoop key fuel rest2
    | _ => none

/-- Model of `reflect.StructTag.Get`: the value of `key` in the tag, the empty
string when the tag has no well-formed entry for it. -/
def StructTag.Get (tag key : String) : String :=
  match lookupLoop key.data (tag.length + 1) tag.data with
  | some v => String.mk v
  | none => ""

/-- Split of a text at every comma. -/
def splitComma : List Char → List (List Char)
  | [] => [[]]
  | c :: rest =>
    match splitComma rest with
    | [] => [[c]]
    | hd :: tl => if c = ',' then [] :: hd :: tl else (c :: hd) :: tl

/-- Model of `parseTag` of `encoding/json`: the name before the first comma and
the comma-separated options after it. -/
def parseTag (tag : String) : String × List String :=
  match splitComma tag.data with
  | [] => ("", [])
  | hd :: tl => (String.mk hd, tl.map String.mk)

/-- Model of `tagOptions.Contains`: an option counts only when it equals the
wanted name exactly. -/
def optionsContain (opts : List String) (optionName : String) : Bool :=
  opts.any (fun o => o = optionName)

/-- Model of `isValidTag` of `encoding/json` (letters and digits are the ASCII
ones). -/
def isValidTag (s : String) : Bool :=
  !s.data.isEmpty &&
    s.data.all (fun c => "!#$%&()*+-./:;<=>?@[]^_\x7b|\x7d~ ".data.contains c
      || c.isAlpha || c.isDigit)

/-- The JSON key of a member: the name given by its `json` tag when that name
is valid, the Go name of the member otherwise. -/
def StructField.key (f : StructField) : String :=
  let name := (parseTag (StructTag.Get f.Tag "json")).1
  if isValidTag name then name else f.Name

/-- Whether the `json` tag of a member carries the option `omitempty`. -/
def StructField.omitEmpty (f : StructField) : Bool :=
  optionsContain (parseTag (StructTag.Get f.Tag "json")).2 "omitempty"

/-- Whether the member is left out of the encoding altogether (tag `-`). -/
def StructField.ignored (f : StructField) : Bool :=
  StructTag.Get f.Tag "json" = "-"

/-! ## JSON text -/

/-- Lower-case hexadecimal digit. -/
def hexDigit (n : Nat) : Char :=
  "0123456789abcdef".data.getD n '0'

/-- Encoding of one character inside a JSON string, as `encoding/json` does it
with HTML escaping on (the default of `json.Marshal`, Go 1.22 and later). -/
def escapeChar (c : Char) : List Char :=
  if c = '\\' || c = '"' then ['\\', c]
  else if c.toNat = 8 then ['\\', 'b']
  else if c.toNat = 12 then ['\\', 'f']
  else if c = '\n' then ['\\', 'n']
  else if c = '\r' then ['\\', 'r']
  else if c = '\t' then ['\\', 't']
  else if c.toNat < 32 || c = '<' || c = '>' || c = '&' then
    ['\\', 'u', '0', '0', hexDigit (c.toNat / 16), hexDigit (c.toNat % 16)]
  else if c.toNat = 0x2028 then "\\u2028".data
  else if c.toNat = 0x2029 then "\\u2029".data
  else [c]

/-- A character that `encoding/json` copies unchanged into a JSON string. -/
def needsNoEscape (c : Char) : Bool :=
  escapeChar c == [c]

/-- Encoding of a Go string as a JSON string. -/
def encodeString (s : String) : String :=
  String.mk ('"' :: (s.data.flatMap escapeChar ++ ['"']))

/-- Encoding of an `int64`. -/
def encodeInt (i : Int) : String :=
  toString i

/-- Encoding of a `bool`. -/
def encodeBool (b : Bool) : String :=
  if b then "true" else "false"

/-- Encoding of a pointer: `null` for nil, the encoding of the target
otherwise. -/
def encodePtr {α : Type} (enc : α → String) : Option α → String
  | none => "null"
  | some a => enc a

/-- One member of a struct value under encoding: the member, whether its value
is empty in the sense of `isEmptyValue`, and the encoding of the value. -/
structure Member where
  field : StructField
  isEmpty : Bool
  encoded : String

/-- Whether a member appears in the encoding of its struct. -/
def Member.emitted (m : Member) : Bool :=
  !m.field.ignored && !(m.field.omitEmpty && m.isEmpty)

/-- Join of texts with commas. -/
def joinComma : List String → String
  | [] => ""
  | [s] => s
  | s :: rest => s ++ "," ++ joinComma rest

/-- Encoding of a struct value: the emitted members in declaration order, each
as `"key":value`, between braces. -/
def encodeStruct (ms : List Member) : String :=
  "\x7b" ++ joinComma ((ms.filter Member.emitted).map
    (fun m => encodeString m.field.key ++ ":" ++ m.encoded)) ++ "\x7d"

/-- Insertion of a map entry into entries sorted by key. -/
def insertEntry {α : Type} (e : String × α) : List (String × α) → List (String × α)
  | [] => [e]
  | x :: rest => if e.1 < x.1 then e :: x :: rest else x :: insertEntry e rest

/-- The entries of a map sorted by key, the order `encoding/json` writes them
in. -/
def sortEntries {α : Type} : List (String × α) → List (String × α)
  | [] => []
  | e :: rest => insertEntry e (sortEntries rest)

/-- Encoding of a map with string keys: `null` for the nil map, otherwise the
entries in key order between braces. -/
def encodeMap {α : Type} (enc : α → String) : Option (List (String × α)) → String
  | none => "null"
  | some es => "\x7b" ++ joinComma ((sortEntries es).map
      (fun e => encodeString e.1 ++ ":" ++ enc e.2)) ++ "\x7d"

/-! ## The data model (lines 21-67 of the source) -/

/-- DeviceStateUpdate is the structure used in updating the device state. -/
structure DeviceStateUpdate where
  State : String := ""

/-- BaseMessage, the base struct of event message. -/
structure BaseMessage where
  EventID : String := ""
  Timestamp : Int := 0

/-- ValueMetadata, the meta of value. -/
structure ValueMetadata where
  Timestamp : Int := 0

/-- TwinValue, the struct of twin value. -/
structure TwinValue where
  Value : Option String := none
  Metadata : Option ValueMetadata := none

/-- TypeMetadata, the meta of value type (member `Type` of the source). -/
structure TypeMetadata where
  Type_ : String := ""

/-- TwinVersion, twin version. -/
structure TwinVersion where
  CloudVersion : Int := 0
  EdgeVersion : Int := 0

/-- MsgTwin, the struct of device twin. -/
structure MsgTwin where
  Actual : Option TwinValue := none
  Optional : Option Bool := none
  Metadata : Option TypeMetadata := none
  ExpectedVersion : Option TwinValue := none
  ActualVersion : Option TwinVersion := none

/-- DeviceTwinUpdate, the struct of device twin update: the embedded
BaseMessage and the map from field name to twin. -/
structure DeviceTwinUpdate where
  toBaseMessage : BaseMessage := {}
  Twin : Option (List (String × Option MsgTwin)) := none

/-! ### The members with their tags, copied from the source -/

def DeviceStateUpdate.fState : StructField := ⟨"State", "json:\"state,omitempty\""⟩
def BaseMessage.fEventID : StructField := ⟨"EventID", "json:\"event_id\""⟩
def BaseMessage.fTimestamp : StructField := ⟨"Timestamp", "json:\"timestamp\""⟩
def TwinValue.fValue : StructField := ⟨"Value", "json:\"value, omitempty\""⟩
def TwinValue.fMetadata : StructField := ⟨"Metadata", "json:\"metadata,omitempty\""⟩
def ValueMetadata.fTimestamp : StructField := ⟨"Timestamp", "json:\"timestamp, omitempty\""⟩
def TypeMetadata.fType : StructField := ⟨"Type", "json:\"type,omitempty\""⟩
def TwinVersion.fCloudVersion : StructField := ⟨"CloudVersion", "json:\"cloud\""⟩
def TwinVersion.fEdgeVersion : StructField := ⟨"EdgeVersion", "json:\"edge\""⟩
def MsgTwin.fActual : StructField := ⟨"Actual", "json:\"temperature,omitempty\""⟩
def MsgTwin.fOptional : StructField := ⟨"Optional", "json:\"optional,omitempty\""⟩
def MsgTwin.fMetadata : StructField := ⟨"Metadata", "json:\"metadata,omitempty\""⟩
def MsgTwin.fExpectedVersion : StructField :=
  ⟨"ExpectedVersion", "json:\"expected_version,omitempty\""⟩
def MsgTwin.fActualVersion : StructField :=
  ⟨"ActualVersion", "json:\"actual_version,omitempty\""⟩
def DeviceTwinUpdate.fTwin : StructField := ⟨"Twin", "json:twin\""⟩

/-! ### `json.Marshal` on the types of the package

`isEmptyValue` is: nil for a pointer, length zero for a string or a map, zero
for an integer, false for a bool. -/

def DeviceStateUpdate.json (d : DeviceStateUpdate) : String :=
  encodeStruct [⟨DeviceStateUpdate.fState, d.State.data.isEmpty, encodeString d.State⟩]

def ValueMetadata.json (m : ValueMetadata) : String :=
  encodeStruct [⟨ValueMetadata.fTimestamp, m.Timestamp == 0, encodeInt m.Timestamp⟩]

def TwinValue.json (t : TwinValue) : String :=
  encodeStruct
    [⟨TwinValue.fValue, t.Value.isNone, encodePtr encodeString t.Value⟩,
     ⟨TwinValue.fMetadata, t.Metadata.isNone, encodePtr ValueMetadata.json t.Metadata⟩]

def TypeMetadata.json (m : TypeMetadata) : String :=
  encodeStruct [⟨TypeMetadata.fType, m.Type_.data.isEmpty, encodeString m.Type_⟩]

def TwinVersion.json (v : TwinVersion) : String :=
  encodeStruct
    [⟨TwinVersion.fCloudVersion, v.CloudVersion == 0, encodeInt v.CloudVersion⟩,
     ⟨TwinVersion.fEdgeVersion, v.EdgeVersion == 0, encodeInt v.EdgeVersion⟩]

def MsgTwin.json (m : MsgTwin) : String :=
  encodeStruct
    [⟨MsgTwin.fActual, m.Actual.isNone, encodePtr TwinValue.json m.Actual⟩,
     ⟨MsgTwin.fOptional, m.Optional.isNone, encodePtr encodeBool m.Optional⟩,
     ⟨MsgTwin.fMetadata, m.Metadata.isNone, encodePtr TypeMetadata.json m.Metadata⟩,
     ⟨MsgTwin.fExpectedVersion, m.ExpectedVersion.isNone,
        encodePtr TwinValue.json m.ExpectedVersion⟩,
     ⟨MsgTwin.fActualVersion, m.ActualVersion.isNone,
        encodePtr TwinVersion.json m.ActualVersion⟩]

/-- The members of the embedded BaseMessage are promoted: they are encoded as
members of the update itself, before `Twin`. -/
def DeviceTwinUpdate.json (u : DeviceTwinUpdate) : String :=
  encodeStruct
    [⟨BaseMessage.fEventID, u.toBaseMessage.EventID.data.isEmpty,
        encodeString u.toBaseMessage.EventID⟩,
     ⟨BaseMessage.fTimestamp, u.toBaseMessage.Timestamp == 0,
        encodeInt u.toBaseMessage.Timestamp⟩,
     ⟨DeviceTwinUpdate.fTwin, (u.Twin.getD []).isEmpty,
        encodeMap (encodePtr MsgTwin.json) u.Twin⟩]

/-! ## The MQTT library, as far as the package uses it -/

/-- The TLS settings the package builds (`tls.Config`): the two members the
source sets. -/
structure TLSConfig where
  InsecureSkipVerify : Bool := false
  NoClientCert : Bool := true
deriving DecidableEq

/-- The options record of the MQTT library (`MQTT.ClientOptions`), restricted to
the members the source sets; the values are those of `NewClientOptions`. An
empty `Username` or `Password` is one that is not sent. `Servers` holds the
broker addresses as the library parsed them. -/
structure ClientOptions where
  Servers : List String := []
  ClientID : String := ""
  Username : String := ""
  Password : String := ""
  CleanSession : Bool := true
  TLS : Option TLSConfig := none
deriving DecidableEq

/-- `AddBroker` of the library: the address is parsed by the library (which may
put a scheme before it), the result is appended to `Servers`, and an address
the library cannot parse is dropped. The parsing is the library's own and is a
parameter: `none` is a rejected address. -/
def ClientOptions.AddBroker (o : ClientOptions) (parse : String → Option String)
    (server : String) : ClientOptions :=
  match parse server with
  | some uri => { o with Servers := o.Servers ++ [uri] }
  | none => o

def ClientOptions.SetClientID (o : ClientOptions) (id : String) : ClientOptions :=
  { o with ClientID := id }

def ClientOptions.SetCleanSession (o : ClientOptions) (clean : Bool) : ClientOptions :=
  { o with CleanSession := clean }

def ClientOptions.SetUsername (o : ClientOptions) (u : String) : ClientOptions :=
  { o with Username := u }

def ClientOptions.SetPassword (o : ClientOptions) (p : String) : ClientOptions :=
  { o with Password := p }

def ClientOptions.SetTLSConfig (o : ClientOptions) (t : TLSConfig) : ClientOptions :=
  { o with TLS := some t }

/-- What a `Token` answers: the result of `Wait()` and of `Error()` (`none` is
the nil error). -/
structure Token where
  Wait : Bool
  Error : Option String
deriving DecidableEq

/-- `time.Second`, in nanoseconds. -/
def Second : Nat := 1000000000

/-- The effects of the package on the outside, in the order they happen. A log
line is the list of the operands given to `log.Println` or `log.Panicln`. -/
inductive Effect where
  | log (operands : List String)
  | connect (opts : ClientOptions)
  | publish (topic : String) (qos : Nat) (retained : Bool) (payload : String)
  | wait
  | sleep (nanoseconds : Nat)
deriving DecidableEq

/-- The package-level variables and the trace of effects. `client` is `none`
until `Init` has built it. -/
structure World where
  Prefix : String := "$hw/events/device"
  StateUpdateSuffix : String := "/state/update"
  TwinUpdateSuffix : String := "/twin/update"
  TwinCloudUpdateSuffix : String := "/twin/cloud_update"
  token_client : Option Token := none
  clientOpts : Option ClientOptions := none
  client : Option ClientOptions := none
  deviceID : String := ""
  trace : List Effect := []

/-- How a call ends. -/
inductive Outcome where
  | returned
  | panicked (operands : List String)
deriving DecidableEq

/-- The result of running an operation: how it ended and the world it left. -/
structure Run where
  outcome : Outcome
  world : World

/-- What lies outside the package: `json.Marshal` on the two document types
(an error leaves no bytes), the parsing of a broker address by the MQTT library
(`none` for an address it rejects), and the broker side of the MQTT client,
which answers every `Connect` and `Publish` with a token that may depend on all
the effects so far. -/
structure Env where
  marshalState : DeviceStateUpdate → Except String String
  marshalTwin : DeviceTwinUpdate → Except String String
  brokerURI : String → Option String
  broker : List Effect → Token

/-- The environment whose `json.Marshal` is the model of `encoding/json`
above; on the types of the package it never fails. -/
def Env.go (brokerURI : String → Option String) (broker : List Effect → Token) : Env :=
  { marshalState := fun d => .ok d.json
    marshalTwin := fun u => .ok u.json
    brokerURI := brokerURI
    broker := broker }

/-- Append of one effect to the trace. -/
def World.emit (w : World) (e : Effect) : World :=
  { w with trace := w.trace ++ [e] }

/-- The runtime panic of a method call on the nil `client`. -/
def nilClient : List String :=
  ["runtime error: invalid memory address or nil pointer dereference"]

/-- The bytes `json.Marshal` returned: none on an error. -/
def bodyOf : Except String String → String
  | .ok b => b
  | .error _ => ""

/-- The test `token_client.Wait() && token_client.Error() != nil`. -/
def Token.failed (t : Token) : Bool :=
  t.Wait && t.Error.isSome

/-- The error text of a token (empty for the nil error). -/
def Token.errorText (t : Token) : String :=
  t.Error.getD ""

/-- The statement `token_client = client.Publish(topic, 0, false, body)`
followed by `token_client.Wait()`: `none` when `client` is nil. -/
def publishWait (E : Env) (topic body : String) (w : World) : Option (Token × World) :=
  match w.client with
  | none => none
  | some _ =>
    let w1 := w.emit (.publish topic 0 false body)
    let tok := E.broker w1.trace
    some (tok, { w1 with token_client := some tok }.emit .wait)

/-! ## The operations (lines 87-211 of the source) -/

/-- mqttConfig create the mqtt client config. -/
def mqttConfig (E : Env) (server clientID user password : String) : ClientOptions :=
  let options :=
    (({} : ClientOptions).AddBroker E.brokerURI server |>.SetClientID clientID).SetCleanSession
      true
  let options :=
    if user ≠ "" then
      let options := options.SetUsername user
      if password ≠ "" then options.SetPassword password else options
    else options
  let tlsConfig : TLSConfig := { InsecureSkipVerify := true, NoClientCert := true }
  options.SetTLSConfig tlsConfig

/-- changeSensorStatus function is used to change the state of this sensor. -/
def changeSensorStatus (E : Env) (state : String) (w : World) : Run :=
  let w := w.emit (.log ["Changing the state of the device to ", state])
  let sensorStateUpdate : DeviceStateUpdate := { State := state }
  match E.marshalState sensorStateUpdate with
  | .error err => ⟨.panicked [err], w.emit (.log [err])⟩
  | .ok messageBody =>
    let statusUpdate := w.Prefix ++ w.deviceID ++ w.StateUpdateSuffix
    match publishWait E statusUpdate messageBody w with
    | none => ⟨.panicked nilClient, w⟩
    | some (tok, w) =>
      if tok.failed then
        let line := ["client.publish() Error in sensor state update is: ", tok.errorText]
        ⟨.panicked line, w.emit (.log line)⟩
      else ⟨.returned, w⟩

/-- changeTwinValue sends the updated twin value to the edge through the MQTT
broker. -/
def changeTwinValue (E : Env) (updateMessage : DeviceTwinUpdate) (w : World) : Run :=
  let marshalled := E.marshalTwin updateMessage
  let messageBody := bodyOf marshalled
  let w := match marshalled with
    | .error err => w.emit (.log ["Error: ", err])
    | .ok _ => w
  let topic := w.Prefix ++ w.deviceID ++ w.TwinUpdateSuffix
  match publishWait E topic messageBody w with
  | none => ⟨.panicked nilClient, w⟩
  | some (tok, w) =>
    if tok.failed then
      ⟨.returned,
        w.emit (.log ["client.publish() Error in device twin update is: ", tok.errorText])⟩
    else ⟨.returned, w⟩

/-- syncToCloud function syncs the updated device twin information to the
cloud. -/
def syncToCloud (E : Env) (message : DeviceTwinUpdate) (w : World) : Run :=
  let topic := w.Prefix ++ w.deviceID ++ w.TwinCloudUpdateSuffix
  let marshalled := E.marshalTwin message
  let messageBody := bodyOf marshalled
  let w := match marshalled with
    | .error err => w.emit (.log ["syncToCoud marshal error is: ", err])
    | .ok _ => w
  match publishWait E topic messageBody w with
  | none => ⟨.panicked nilClient, w⟩
  | some (tok, w) =>
    if tok.failed then
      ⟨.returned,
        w.emit (.log ["client.publish() erro in device twin update to cloud is: ",
          tok.errorText])⟩
    else ⟨.returned, w⟩

/-- createActualUpdateMessage function is used to create the device twin update
message. -/
def createActualUpdateMessage (actualValue : String) : DeviceTwinUpdate :=
  let message : DeviceTwinUpdate := {}
  let actualMap : List (String × Option MsgTwin) :=
    [("CPU_Temperatur",
      some { Actual := some { Value := some actualValue },
             Metadata := some { Type_ := "Updated" } })]
  { message with Twin := some actualMap }

/-- Sequencing of two statements: a panic ends the call. -/
def Run.andThen (r : Run) (k : World → Run) : Run :=
  match r.outcome with
  | .returned => k r.world
  | .panicked _ => r

/-- Update, this function is used to update values on the edge and in the
cloud. -/
def Update (E : Env) (value : String) (w : World) : Run :=
  let w := w.emit (.log ["Syncing to edge"])
  let updateMessage := createActualUpdateMessage value
  (changeTwinValue E updateMessage w).andThen fun w =>
    let w := w.emit (.sleep (2 * Second))
    let w := w.emit (.log ["Syncing to cloud"])
    syncToCloud E updateMessage w

/-- Init initialise the MQTT connection and set the used ipAddress and
deviceID. -/
def Init (E : Env) (ipAddress id user password : String) (w : World) : Run :=
  let w := { w with deviceID := id }
  let opts := mqttConfig E ipAddress w.deviceID user password
  let w := { w with clientOpts := some opts }
  let w := { w with client := some opts }
  let w := w.emit (.connect opts)
  let tok := E.broker w.trace
  let w := { w with token_client := some tok }.emit .wait
  if tok.failed then
    ⟨.returned, w.emit (.log ["client.Connect() Error is: ", tok.errorText])⟩
  else ⟨.returned, w⟩

/-! ## Reading a trace -/

/-- The publishes of a trace, in order, as pairs of topic and payload. -/
def publishes : List Effect → List (String × String)
  | [] => []
  | .publish topic _ _ payload :: rest => (topic, payload) :: publishes rest
  | _ :: rest => publishes rest

/-- Whether an effect is a publish or a pause. -/
def Effect.isPublishOrSleep : Effect → Bool
  | .publish _ _ _ _ => true
  | .sleep _ => true
  | _ => false

/-- Whether an effect is a log line. -/
def Effect.isLog : Effect → Bool
  | .log _ => true
  | _ => false

/-- The effects an operation added to the trace of the world it started in. -/
def added (before : World) (r : Run) : List Effect :=
  r.world.trace.drop before.trace.length

/-- One text occurs inside another. -/
def containsText (payload text : String) : Prop :=
  ∃ pre post : String, payload = pre ++ text ++ post

/-- The topics of the publishes an operation added, in order. -/
def topics (before : World) (r : Run) : List String :=
  (publishes (added before r)).map Prod.fst

/-- The log line written when `json.Marshal` returned an error. -/
def marshalLog (label : String) : Except String String → List Effect
  | .error err => [.log [label, err]]
  | .ok _ => []

/-- The log line written when the token reports an error after the wait. -/
def failLog (label : String) (tok : Token) : List Effect :=
  if tok.failed then [.log [label, tok.errorText]] else []

/-- The world a twin publish leaves when the client is set: the effects `pre`
logged before it, the publish, the wait, and the report of a failed token. -/
def afterPublish (E : Env) (w : World) (pre : List Effect)
    (topic body failLabel : String) : World :=
  { w with
    token_client := some (E.broker (w.trace ++ pre ++ [.publish topic 0 false body]))
    trace := w.trace ++ pre ++ [.publish topic 0 false body] ++ [.wait] ++
      failLog failLabel (E.broker (w.trace ++ pre ++ [.publish topic 0 false body])) }

/-- The package variables hold the values the source declares for the three
suffixes. -/
def World.declaredSuffixes (w : World) : Prop :=
  w.StateUpdateSuffix = "/state/update" ∧ w.TwinUpdateSuffix = "/twin/update" ∧
    w.TwinCloudUpdateSuffix = "/twin/cloud_update"

/-- An environment whose `json.Marshal` always fails, with a broker that
acknowledges everything. -/
def failingMarshal : Env :=
  { marshalState := fun _ => .error "json: unsupported value"
    marshalTwin := fun _ => .error "json: unsupported value"
    brokerURI := some
    broker := fun _ => ⟨true, none⟩ }

/-- An address parsing that keeps the address as given, as the library does
with an address that has a scheme and parses, such as `tcp://broker:1883`. -/
def keepAddress : String → Option String :=
  some

/-- A broker that acknowledges everything without error. -/
def okBroker : List Effect → Token :=
  fun _ => ⟨true, none⟩

/-- A broker that acknowledges everything and reports an error each time. -/
def errBroker : List Effect → Token :=
  fun _ => ⟨true, some "connection lost"⟩

/-- A world in which `Init` has run with device identifier `dev-1`. -/
def readyWorld : World :=
  (Init (Env.go keepAddress okBroker) "tcp://broker:1883" "dev-1" "" "" {}).world

/-! ## Lemmas on texts and traces -/

theorem containsText_iff (p t : String) : containsText p t ↔ t.data <:+: p.data := by
  constructor
  · rintro ⟨pre, post, h⟩
    refine ⟨pre.data, post.data, ?_⟩
    rw [h]
    simp [String.data_append]
  · rintro ⟨s, u, h⟩
    refine ⟨String.mk s, String.mk u, ?_⟩
    apply String.ext
    simp [String.data_append, h]

theorem publishes_append (a b : List Effect) :
    publishes (a ++ b) = publishes a ++ publishes b := by
  induction a with
  | nil => rfl
  | cons e rest ih => cases e <;> simp [publishes, ih]

theorem publishes_marshalLog (l : String) (m : Except String String) :
    publishes (marshalLog l m) = [] := by
  cases m <;> rfl

theorem publishes_failLog (l : String) (t : Token) : publishes (failLog l t) = [] := by
  unfold failLog
  split_ifs <;> rfl

theorem filter_marshalLog (l : String) (m : Except String String) :
    (marshalLog l m).filter Effect.isPublishOrSleep = [] := by
  cases m <;> rfl

theorem filter_failLog (l : String) (t : Token) :
    (failLog l t).filter Effect.isPublishOrSleep = [] := by
  unfold failLog
  split_ifs <;> rfl

theorem added_of_trace (w : World) (r : Run) (xs : List Effect)
    (h : r.world.trace = w.trace ++ xs) : added w r = xs := by
  simp [added, h]

/-! ## What each operation does when the client is set -/

theorem changeTwinValue_eq (E : Env) (u : DeviceTwinUpdate) (w : World) (c : ClientOptions)
    (h : w.client = some c) :
    changeTwinValue E u w =
      ⟨.returned, afterPublish E w (marshalLog "Error: " (E.marshalTwin u))
        (w.Prefix ++ w.deviceID ++ w.TwinUpdateSuffix) (bodyOf (E.marshalTwin u))
        "client.publish() Error in device twin update is: "⟩ := by
  unfold changeTwinValue publishWait afterPublish
  cases hm : E.marshalTwin u <;>
    simp only [h, World.emit, marshalLog, failLog, bodyOf, List.append_nil] <;>
    split_ifs <;> simp

theorem syncToCloud_eq (E : Env) (u : DeviceTwinUpdate) (w : World) (c : ClientOptions)
    (h : w.client = some c) :
    syncToCloud E u w =
      ⟨.returned, afterPublish E w (marshalLog "syncToCoud marshal error is: " (E.marshalTwin u))
        (w.Prefix ++ w.deviceID ++ w.TwinCloudUpdateSuffix) (bodyOf (E.marshalTwin u))
        "client.publish() erro in device twin update to cloud is: "⟩ := by
  unfold syncToCloud publishWait afterPublish
  cases hm : E.marshalTwin u <;>
    simp only [h, World.emit, marshalLog, failLog, bodyOf, List.append_nil] <;>
    split_ifs <;> simp

theorem Update_eq (E : Env) (v : String) (w : World) (c : ClientOptions)
    (h : w.client = some c) :
    Update E v w =
      ⟨.returned,
        afterPublish E
          ((afterPublish E (w.emit (.log ["Syncing to edge"]))
              (marshalLog "Error: " (E.marshalTwin (createActualUpdateMessage v)))
              (w.Prefix ++ w.deviceID ++ w.TwinUpdateSuffix)
              (bodyOf (E.marshalTwin (createActualUpdateMessage v)))
              "client.publish() Error in device twin update is: ").emit
            (.sleep (2 * Second)) |>.emit (.log ["Syncing to cloud"]))
          (marshalLog "syncToCoud marshal error is: "
            (E.marshalTwin (createActualUpdateMessage v)))
          (w.Prefix ++ w.deviceID ++ w.TwinCloudUpdateSuffix)
          (bodyOf (E.marshalTwin (createActualUpdateMessage v)))
          "client.publish() erro in device twin update to cloud is: "⟩ := by
  unfold Update
  have h1 : (w.emit (.log ["Syncing to edge"])).client = some c := h
  simp only [changeTwinValue_eq E _ _ c h1, Run.andThen]
  rw [syncToCloud_eq E _ _ c (by simpa [afterPublish, World.emit] using h)]
  rfl

theorem afterPublish_publishes (E : Env) (w : World) (pre : List Effect)
    (topic body l : String) (r : Run) (hr : r.world = afterPublish E w pre topic body l)
    (hpre : publishes pre = []) :
    publishes (added w r) = [(topic, body)] := by
  have ht : r.world.trace = w.trace ++ (pre ++ [.publish topic 0 false body] ++ [.wait] ++
      failLog l (E.broker (w.trace ++ pre ++ [.publish topic 0 false body]))) := by
    rw [hr]; simp [afterPublish]
  rw [added_of_trace w r _ ht]
  simp [publishes_append, publishes_failLog, hpre, publishes]

theorem changeTwinValue_publishes (E : Env) (u : DeviceTwinUpdate) (w : World)
    (c : ClientOptions) (h : w.client = some c) :
    publishes (added w (changeTwinValue E u w)) =
      [(w.Prefix ++ w.deviceID ++ w.TwinUpdateSuffix, bodyOf (E.marshalTwin u))] :=
  afterPublish_publishes E w _ _ _ _ _ (by rw [changeTwinValue_eq E u w c h])
    (publishes_marshalLog _ _)

theorem syncToCloud_publishes (E : Env) (u : DeviceTwinUpdate) (w : World)
    (c : ClientOptions) (h : w.client = some c) :
    publishes (added w (syncToCloud E u w)) =
      [(w.Prefix ++ w.deviceID ++ w.TwinCloudUpdateSuffix, bodyOf (E.marshalTwin u))] :=
  afterPublish_publishes E w _ _ _ _ _ (by rw [syncToCloud_eq E u w c h])
    (publishes_marshalLog _ _)

theorem changeSensorStatus_error (E : Env) (state : String) (w : World) (err : String)
    (hm : E.marshalState { State := state } = .error err) :
    changeSensorStatus E state w =
      ⟨.panicked [err],
        (w.emit (.log ["Changing the state of the device to ", state])).emit (.log [err])⟩ := by
  unfold changeSensorStatus
  simp only [hm]

theorem changeSensorStatus_ok (E : Env) (state : String) (w : World) (c : ClientOptions)
    (body : String) (h : w.client = some c)
    (hm : E.marshalState { State := state } = .ok body) :
    changeSensorStatus E state w =
      ⟨if (E.broker (w.trace ++ [.log ["Changing the state of the device to ", state]] ++
            [.publish (w.Prefix ++ w.deviceID ++ w.StateUpdateSuffix) 0 false body])).failed
        then .panicked ["client.publish() Error in sensor state update is: ",
          (E.broker (w.trace ++ [.log ["Changing the state of the device to ", state]] ++
            [.publish (w.Prefix ++ w.deviceID ++ w.StateUpdateSuffix) 0 false body])).errorText]
        else .returned,
       afterPublish E w [.log ["Changing the state of the device to ", state]]
        (w.Prefix ++ w.deviceID ++ w.StateUpdateSuffix) body
        "client.publish() Error in sensor state update is: "⟩ := by
  unfold changeSensorStatus publishWait afterPublish
  simp only [hm, h, World.emit, failLog]
  split_ifs <;> simp

theorem changeSensorStatus_publishes (E : Env) (state : String) (w : World) (c : ClientOptions)
    (body : String) (h : w.client = some c)
    (hm : E.marshalState { State := state } = .ok body) :
    publishes (added w (changeSensorStatus E state w)) =
      [(w.Prefix ++ w.deviceID ++ w.StateUpdateSuffix, body)] :=
  afterPublish_publishes E w [.log ["Changing the state of the device to ", state]] _ _
    "client.publish() Error in sensor state update is: " _
    (by rw [changeSensorStatus_ok E state w c body h hm]) rfl

theorem changeSensorStatus_error_publishes (E : Env) (state : String) (w : World)
    (err : String) (hm : E.marshalState { State := state } = .error err) :
    publishes (added w (changeSensorStatus E state w)) = [] := by
  rw [added_of_trace w _ [.log ["Changing the state of the device to ", state], .log [err]]]
  · rfl
  · rw [changeSensorStatus_error E state w err hm]
    simp [World.emit]

theorem Update_filtered (E : Env) (v : String) (w : World) (c : ClientOptions)
    (h : w.client = some c) :
    (added w (Update E v w)).filter Effect.isPublishOrSleep =
      [.publish (w.Prefix ++ w.deviceID ++ w.TwinUpdateSuffix) 0 false
          (bodyOf (E.marshalTwin (createActualUpdateMessage v))),
       .sleep (2 * Second),
       .publish (w.Prefix ++ w.deviceID ++ w.TwinCloudUpdateSuffix) 0 false
          (bodyOf (E.marshalTwin (createActualUpdateMessage v)))] := by
  rw [Update_eq E v w c h]
  simp [added, afterPublish, World.emit, List.filter_append, filter_marshalLog, filter_failLog,
    Effect.isPublishOrSleep]

theorem Init_world (E : Env) (ipAddress id user password : String) (w : World) :
    (Init E ipAddress id user password w).world.deviceID = id ∧
    (Init E ipAddress id user password w).world.client =
      some (mqttConfig E ipAddress id user password) ∧
    (Init E ipAddress id user password w).world.clientOpts =
      some (mqttConfig E ipAddress id user password) ∧
    (Init E ipAddress id user password w).world.Prefix = w.Prefix ∧
    (Init E ipAddress id user password w).world.StateUpdateSuffix = w.StateUpdateSuffix ∧
    (Init E ipAddress id user password w).world.TwinUpdateSuffix = w.TwinUpdateSuffix ∧
    (Init E ipAddress id user password w).world.TwinCloudUpdateSuffix =
      w.TwinCloudUpdateSuffix := by
  unfold Init
  simp only [World.emit]
  split_ifs <;> simp

theorem changeSensorStatus_topics (E : Env) (state : String) (w : World) (c : ClientOptions)
    (h : w.client = some c) :
    ∀ t ∈ topics w (changeSensorStatus E state w),
      t = w.Prefix ++ w.deviceID ++ w.StateUpdateSuffix := by
  intro t ht
  cases hm : E.marshalState { State := state } with
  | error err =>
    rw [topics, changeSensorStatus_error_publishes E state w err hm] at ht
    simp at ht
  | ok body =>
    rw [topics, changeSensorStatus_publishes E state w c body h hm] at ht
    simpa using ht

theorem append3_data (p d s : String) : (p ++ d ++ s).data = p.data ++ (d.data ++ s.data) := by
  simp [String.data_append]

/-- Two topics with one prefix are equal only if the shorter suffix is a
suffix of the longer one. -/
theorem topic_eq_suffix (p d1 d2 s1 s2 : String) (h : p ++ d1 ++ s1 = p ++ d2 ++ s2)
    (hl : s1.data.length ≤ s2.data.length) : s1.data <:+ s2.data := by
  have hd := congrArg String.data h
  rw [append3_data, append3_data] at hd
  have hd2 : d1.data ++ s1.data = d2.data ++ s2.data := List.append_cancel_left hd
  have h1 : s1.data <:+ d2.data ++ s2.data := hd2 ▸ List.suffix_append d1.data s1.data
  exact List.suffix_of_suffix_length_le h1 (List.suffix_append d2.data s2.data) hl

/-- Within one class the topic determines the device identifier. -/
theorem topic_injective (p d1 d2 s : String) (h : p ++ d1 ++ s = p ++ d2 ++ s) : d1 = d2 := by
  have hd := congrArg String.data h
  rw [append3_data, append3_data] at hd
  exact String.ext (List.append_cancel_right (List.append_cancel_left hd))

theorem state_ne_twin (p d1 d2 : String) :
    p ++ d1 ++ "/state/update" ≠ p ++ d2 ++ "/twin/update" := by
  intro h
  exact absurd (topic_eq_suffix p d2 d1 _ _ h.symm (by decide)) (by decide)

theorem state_ne_cloud (p d1 d2 : String) :
    p ++ d1 ++ "/state/update" ≠ p ++ d2 ++ "/twin/cloud_update" := by
  intro h
  exact absurd (topic_eq_suffix p d1 d2 _ _ h (by decide)) (by decide)

theorem twin_ne_cloud (p d1 d2 : String) :
    p ++ d1 ++ "/twin/update" ≠ p ++ d2 ++ "/twin/cloud_update" := by
  intro h
  exact absurd (topic_eq_suffix p d1 d2 _ _ h (by decide)) (by decide)

theorem Update_publishes (E : Env) (v : String) (w : World) (c : ClientOptions)
    (h : w.client = some c) :
    publishes (added w (Update E v w)) =
      [(w.Prefix ++ w.deviceID ++ w.TwinUpdateSuffix,
          bodyOf (E.marshalTwin (createActualUpdateMessage v))),
       (w.Prefix ++ w.deviceID ++ w.TwinCloudUpdateSuffix,
          bodyOf (E.marshalTwin (createActualUpdateMessage v)))] := by
  rw [Update_eq E v w c h]
  simp [added, afterPublish, World.emit, publishes_append, publishes_marshalLog,
    publishes_failLog, publishes]

theorem flatMap_escapeChar_id (l : List Char) (h : ∀ c ∈ l, needsNoEscape c = true) :
    l.flatMap escapeChar = l := by
  induction l with
  | nil => rfl
  | cons c rest ih =>
    have hc : escapeChar c = [c] := by
      have := h c (List.mem_cons_self _ _)
      simpa [needsNoEscape] using this
    rw [List.flatMap_cons, hc, ih (fun d hd => h d (List.mem_cons_of_mem _ hd))]
    rfl

theorem emitted_eq (f : StructField) (e : Bool) (s : String) :
    Member.emitted ⟨f, e, s⟩ = (!f.ignored && !(f.omitEmpty && e)) := rfl

set_option maxRecDepth 100000 in
/-- The serialization of the document built from a value that needs no
escaping. -/
theorem payload_of_plain_value (v : String) (h : ∀ c ∈ v.data, needsNoEscape c = true) :
    (createActualUpdateMessage v).json =
      "\x7b\"event_id\":\"\",\"timestamp\":0,\"Twin\":\x7b\"CPU_Temperatur\":\x7b\"temperature\":\x7b\"value\":\"" ++ v ++ "\"\x7d,\"metadata\":\x7b\"type\":\"Updated\"\x7d\x7d\x7d\x7d" := by
  have he : encodeString v = String.mk ('"' :: (v.data ++ ['"'])) := by
    unfold encodeString
    rw [flatMap_escapeChar_id v.data h]
  have k1 : TwinValue.fValue.ignored = false ∧ TwinValue.fValue.omitEmpty = false ∧
      encodeString TwinValue.fValue.key = "\"value\"" := by decide
  have k2 : TwinValue.fMetadata.ignored = false ∧ TwinValue.fMetadata.omitEmpty = true := by
    decide
  have k3 : MsgTwin.fActual.ignored = false ∧
      encodeString MsgTwin.fActual.key = "\"temperature\"" := by decide
  have k4 : MsgTwin.fOptional.omitEmpty = true ∧ MsgTwin.fExpectedVersion.omitEmpty = true ∧
      MsgTwin.fActualVersion.omitEmpty = true := by decide
  have k5 : MsgTwin.fMetadata.ignored = false ∧
      encodeString MsgTwin.fMetadata.key = "\"metadata\"" := by decide
  have k6 : TypeMetadata.json { Type_ := "Updated" } = "\x7b\"type\":\"Updated\"\x7d" := by
    decide
  have k7 : BaseMessage.fEventID.ignored = false ∧ BaseMessage.fEventID.omitEmpty = false ∧
      encodeString BaseMessage.fEventID.key = "\"event_id\"" ∧
      BaseMessage.fTimestamp.ignored = false ∧ BaseMessage.fTimestamp.omitEmpty = false ∧
      encodeString BaseMessage.fTimestamp.key = "\"timestamp\"" ∧
      DeviceTwinUpdate.fTwin.ignored = false ∧ DeviceTwinUpdate.fTwin.omitEmpty = false ∧
      encodeString DeviceTwinUpdate.fTwin.key = "\"Twin\"" ∧
      encodeString "CPU_Temperatur" = "\"CPU_Temperatur\"" ∧ encodeString "" = "\"\"" ∧
      encodeInt 0 = "0" := by decide
  obtain ⟨data⟩ := v
  simp only [createActualUpdateMessage, DeviceTwinUpdate.json, encodeMap, sortEntries,
    insertEntry, List.map, encodePtr, MsgTwin.json, TwinValue.json, encodeStruct, emitted_eq,
    List.filter, k1, k2, k3, k4, k5, k6, k7, he, Option.isNone, Bool.not_false, Bool.not_true,
    Bool.and_true, Bool.and_false, Bool.false_and, Bool.true_and, joinComma, Bool.and_self]
  apply String.ext
  simp [String.data_append]

/-! ## The claims -/

/-- C5: for every value and every answer of the transport, `Update` on a set
client returns normally and its publishes and pauses are, in order, one publish
on the edge twin topic, one pause of two seconds, one publish on the cloud twin
topic, both publishes with the same payload, the serialization of the document
built once from the value. -/
theorem Update_effect_sequence (E : Env) (v : String) (w : World) (c : ClientOptions)
    (h : w.client = some c) :
    (Update E v w).outcome = .returned ∧
    (added w (Update E v w)).filter Effect.isPublishOrSleep =
      [.publish (w.Prefix ++ w.deviceID ++ w.TwinUpdateSuffix) 0 false
          (bodyOf (E.marshalTwin (createActualUpdateMessage v))),
       .sleep (2 * Second),
       .publish (w.Prefix ++ w.deviceID ++ w.TwinCloudUpdateSuffix) 0 false
          (bodyOf (E.marshalTwin (createActualUpdateMessage v)))] :=
  ⟨by rw [Update_eq E v w c h], Update_filtered E v w c h⟩

/-- Witness of C5: `Update("42.5")` after `Init` with device `dev-1`, on a
broker that reports an error for every publish. -/
theorem Update_effect_sequence_witness :
    readyWorld.client =
      some (mqttConfig (Env.go keepAddress okBroker) "tcp://broker:1883" "dev-1" "" "") ∧
    (Update (Env.go keepAddress errBroker) "42.5" readyWorld).outcome = .returned ∧
    (added readyWorld (Update (Env.go keepAddress errBroker) "42.5" readyWorld)).filter
        Effect.isPublishOrSleep =
      [.publish (readyWorld.Prefix ++ readyWorld.deviceID ++ readyWorld.TwinUpdateSuffix) 0 false
          (bodyOf ((Env.go keepAddress errBroker).marshalTwin (createActualUpdateMessage "42.5"))),
       .sleep (2 * Second),
       .publish (readyWorld.Prefix ++ readyWorld.deviceID ++ readyWorld.TwinCloudUpdateSuffix)
          0 false (bodyOf ((Env.go keepAddress errBroker).marshalTwin (createActualUpdateMessage "42.5")))] :=
  ⟨rfl, Update_effect_sequence (Env.go keepAddress errBroker) "42.5" readyWorld _ rfl⟩

/-- C8: for every value, when the token of the edge publish inside `Update`
reports an error after the acknowledgment, `Update` logs that failure, still
pauses two seconds and then publishes exactly once on the cloud twin topic, and
returns normally. -/
theorem Update_continues_after_edge_failure (E : Env) (v : String) (w : World)
    (c : ClientOptions) (tok : Token) (h : w.client = some c)
    (hedge : (changeTwinValue E (createActualUpdateMessage v)
      (w.emit (.log ["Syncing to edge"]))).world.token_client = some tok)
    (hfail : tok.Wait = true ∧ tok.Error ≠ none) :
    (Update E v w).outcome = .returned ∧
    Effect.log ["client.publish() Error in device twin update is: ", tok.errorText] ∈
      added w (Update E v w) ∧
    (added w (Update E v w)).filter Effect.isPublishOrSleep =
      [.publish (w.Prefix ++ w.deviceID ++ w.TwinUpdateSuffix) 0 false
          (bodyOf (E.marshalTwin (createActualUpdateMessage v))),
       .sleep (2 * Second),
       .publish (w.Prefix ++ w.deviceID ++ w.TwinCloudUpdateSuffix) 0 false
          (bodyOf (E.marshalTwin (createActualUpdateMessage v)))] := by
  refine ⟨by rw [Update_eq E v w c h], ?_, Update_filtered E v w c h⟩
  have h1 : (w.emit (.log ["Syncing to edge"])).client = some c := h
  rw [changeTwinValue_eq E _ _ c h1] at hedge
  simp [afterPublish, World.emit] at hedge
  have hf : tok.failed = true := by
    simp only [Token.failed, hfail.1, Bool.true_and]
    cases he : tok.Error with
    | none => exact absurd he hfail.2
    | some e => rfl
  rw [Update_eq E v w c h]
  simp [added, afterPublish, World.emit, failLog]
  right; left
  rw [hedge]
  exact ⟨hf, rfl⟩

/-- Witness of C8: the broker reports an error for every publish. -/
theorem Update_continues_after_edge_failure_witness :
    (Update (Env.go keepAddress errBroker) "42.5" readyWorld).outcome = .returned ∧
    Effect.log ["client.publish() Error in device twin update is: ", "connection lost"] ∈
      added readyWorld (Update (Env.go keepAddress errBroker) "42.5" readyWorld) :=
  have hw := Update_continues_after_edge_failure (Env.go keepAddress errBroker) "42.5" readyWorld
    (mqttConfig (Env.go keepAddress okBroker) "tcp://broker:1883" "dev-1" "" "")
    ⟨true, some "connection lost"⟩ rfl rfl
    ⟨rfl, by decide⟩
  ⟨hw.1, hw.2.1⟩

/-- C7: with the client set, `changeSensorStatus` panics without publishing
when serialization of the state document fails; when serialization succeeds it
publishes exactly once on the state topic, and then panics if the token of that
publish has `Wait()` true and a non-nil `Error()`, and returns normally in every
other case (`Wait()` false included). `changeTwinValue` and `syncToCloud`
always return normally. -/
theorem changeSensorStatus_fatal_twin_reported (E : Env) (state : String) (w : World)
    (c : ClientOptions) (h : w.client = some c) :
    (∀ err, E.marshalState { State := state } = .error err →
      (changeSensorStatus E state w).outcome = .panicked [err] ∧
      publishes (added w (changeSensorStatus E state w)) = []) ∧
    (∀ body, E.marshalState { State := state } = .ok body →
      ∃ tok, (changeSensorStatus E state w).world.token_client = some tok ∧
        publishes (added w (changeSensorStatus E state w)) =
          [(w.Prefix ++ w.deviceID ++ w.StateUpdateSuffix, body)] ∧
        (tok.Wait = true ∧ tok.Error ≠ none →
          (changeSensorStatus E state w).outcome =
            .panicked ["client.publish() Error in sensor state update is: ", tok.errorText]) ∧
        (¬ (tok.Wait = true ∧ tok.Error ≠ none) →
          (changeSensorStatus E state w).outcome = .returned)) ∧
    (∀ u, (changeTwinValue E u w).outcome = .returned ∧
      (syncToCloud E u w).outcome = .returned) := by
  refine ⟨fun err hm => ⟨by rw [changeSensorStatus_error E state w err hm],
      changeSensorStatus_error_publishes E state w err hm⟩, fun body hm => ?_,
    fun u => ⟨by rw [changeTwinValue_eq E u w c h], by rw [syncToCloud_eq E u w c h]⟩⟩
  refine ⟨E.broker (w.trace ++ [.log ["Changing the state of the device to ", state]] ++
      [.publish (w.Prefix ++ w.deviceID ++ w.StateUpdateSuffix) 0 false body]), ?_,
    changeSensorStatus_publishes E state w c body h hm, ?_, ?_⟩
  · rw [changeSensorStatus_ok E state w c body h hm]
    rfl
  · intro hf
    rw [changeSensorStatus_ok E state w c body h hm]
    have : ∀ t : Token, t.Wait = true ∧ t.Error ≠ none → t.failed = true := by
      intro t ht
      cases he : t.Error with
      | none => exact absurd he ht.2
      | some e => simp [Token.failed, ht.1, he]
    simp only [this _ hf, if_true]
  · intro hf
    rw [changeSensorStatus_ok E state w c body h hm]
    have : ∀ t : Token, ¬ (t.Wait = true ∧ t.Error ≠ none) → t.failed = false := by
      intro t ht
      cases hw : t.Wait with
      | false => simp [Token.failed, hw]
      | true =>
        cases he : t.Error with
        | none => simp [Token.failed, he]
        | some e => exact absurd ⟨hw, by simp [he]⟩ ht
    simp only [this _ hf]
    rfl

/-- Witness of C7: a failing serialization, a token with `Wait()` true and an
error, and a token with `Wait()` false and an error. -/
theorem changeSensorStatus_fatal_twin_reported_witness :
    (changeSensorStatus failingMarshal "online" readyWorld).outcome =
      .panicked ["json: unsupported value"] ∧
    (changeSensorStatus (Env.go keepAddress errBroker) "online" readyWorld).outcome =
      .panicked ["client.publish() Error in sensor state update is: ", "connection lost"] ∧
    (changeSensorStatus (Env.go keepAddress fun _ => ⟨false, some "timeout"⟩) "online"
        readyWorld).outcome =
      .returned ∧
    (changeTwinValue failingMarshal (createActualUpdateMessage "42.5") readyWorld).outcome =
      .returned :=
  have hc : readyWorld.client =
      some (mqttConfig (Env.go keepAddress okBroker) "tcp://broker:1883" "dev-1" "" "") := rfl
  have h1 := (changeSensorStatus_fatal_twin_reported failingMarshal "online" readyWorld _ hc).1
    "json: unsupported value" rfl
  have h4 := (changeSensorStatus_fatal_twin_reported failingMarshal "online" readyWorld _ hc).2.2
    (createActualUpdateMessage "42.5")
  ⟨h1.1, by decide, by decide, h4.1⟩

/-- C4: after `Init` with device identifier `d`, and with the declared prefix
and suffixes, every publish of `changeSensorStatus` goes to
`"$hw/events/device" ++ d ++ "/state/update"` (and there is exactly one when
the state document serializes), `changeTwinValue` publishes to
`"$hw/events/device" ++ d ++ "/twin/update"` and `syncToCloud` to
`"$hw/events/device" ++ d ++ "/twin/cloud_update"`, whatever the state, the
document, the broker, the serializer and the other arguments of `Init`. -/
theorem topics_are_literal_concatenations (E0 E : Env) (ipAddress d user password : String)
    (state : String) (u : DeviceTwinUpdate) (w0 : World)
    (hP : w0.Prefix = "$hw/events/device") (hS : w0.declaredSuffixes) :
    (∀ t ∈ topics (Init E0 ipAddress d user password w0).world
        (changeSensorStatus E state (Init E0 ipAddress d user password w0).world),
      t = "$hw/events/device" ++ d ++ "/state/update") ∧
    (∀ body, E.marshalState { State := state } = .ok body →
      topics (Init E0 ipAddress d user password w0).world
        (changeSensorStatus E state (Init E0 ipAddress d user password w0).world) =
      ["$hw/events/device" ++ d ++ "/state/update"]) ∧
    topics (Init E0 ipAddress d user password w0).world
        (changeTwinValue E u (Init E0 ipAddress d user password w0).world) =
      ["$hw/events/device" ++ d ++ "/twin/update"] ∧
    topics (Init E0 ipAddress d user password w0).world
        (syncToCloud E u (Init E0 ipAddress d user password w0).world) =
      ["$hw/events/device" ++ d ++ "/twin/cloud_update"] := by
  obtain ⟨hd, hc, -, hp, h1, h2, h3⟩ := Init_world E0 ipAddress d user password w0
  obtain ⟨s1, s2, s3⟩ := hS
  generalize (Init E0 ipAddress d user password w0).world = w at hd hc hp h1 h2 h3
  rw [hP] at hp
  rw [s1] at h1
  rw [s2] at h2
  rw [s3] at h3
  refine ⟨?_, ?_, ?_, ?_⟩
  · intro t ht
    rw [changeSensorStatus_topics E state w _ hc t ht, hd, hp, h1]
  · intro body hm
    rw [topics, changeSensorStatus_publishes E state w _ body hc hm, hd, hp, h1]
    rfl
  · rw [topics, changeTwinValue_publishes E u w _ hc, hd, hp, h2]
    rfl
  · rw [topics, syncToCloud_publishes E u w _ hc, hd, hp, h3]
    rfl

/-- Witness of C4: `Init` with device `dev-1` on the declared variables. -/
theorem topics_are_literal_concatenations_witness :
    ({} : World).Prefix = "$hw/events/device" ∧ ({} : World).declaredSuffixes ∧
    topics readyWorld (changeSensorStatus (Env.go keepAddress errBroker) "online" readyWorld) =
      ["$hw/events/device" ++ "dev-1" ++ "/state/update"] ∧
    topics readyWorld (changeTwinValue (Env.go keepAddress errBroker) (createActualUpdateMessage "42.5")
        readyWorld) = ["$hw/events/device" ++ "dev-1" ++ "/twin/update"] ∧
    topics readyWorld (syncToCloud (Env.go keepAddress errBroker) (createActualUpdateMessage "42.5")
        readyWorld) = ["$hw/events/device" ++ "dev-1" ++ "/twin/cloud_update"] :=
  have hw := topics_are_literal_concatenations (Env.go keepAddress okBroker) (Env.go keepAddress errBroker)
    "tcp://broker:1883" "dev-1" "" "" "online" (createActualUpdateMessage "42.5") {}
    rfl ⟨rfl, rfl, rfl⟩
  ⟨rfl, ⟨rfl, rfl, rfl⟩, hw.2.1 _ rfl, hw.2.2.1, hw.2.2.2⟩

/-- C10: with any prefix and the declared suffixes, for all device identifiers
`d1` and `d2` (of any form), no topic `changeSensorStatus` publishes to under
`d1` is one `changeTwinValue` or `syncToCloud` publishes to under `d2`, the
topic of `changeTwinValue` under `d1` differs from that of `syncToCloud` under
`d2`, and within each of the three classes different identifiers give
different topics. -/
theorem topics_never_shared (E : Env) (w : World) (c : ClientOptions) (d1 d2 state : String)
    (u : DeviceTwinUpdate) (hc : w.client = some c) (hS : w.declaredSuffixes) :
    (topics { w with deviceID := d1 } (changeTwinValue E u { w with deviceID := d1 }) =
        [w.Prefix ++ d1 ++ "/twin/update"] ∧
      topics { w with deviceID := d2 } (syncToCloud E u { w with deviceID := d2 }) =
        [w.Prefix ++ d2 ++ "/twin/cloud_update"]) ∧
    (∀ a ∈ topics { w with deviceID := d1 } (changeSensorStatus E state { w with deviceID := d1 }),
      a ∉ topics { w with deviceID := d2 } (changeTwinValue E u { w with deviceID := d2 }) ∧
      a ∉ topics { w with deviceID := d2 } (syncToCloud E u { w with deviceID := d2 })) ∧
    (∀ a ∈ topics { w with deviceID := d1 } (changeTwinValue E u { w with deviceID := d1 }),
      a ∉ topics { w with deviceID := d2 } (syncToCloud E u { w with deviceID := d2 })) ∧
    (d1 ≠ d2 →
      (∀ a ∈ topics { w with deviceID := d1 }
          (changeSensorStatus E state { w with deviceID := d1 }),
        a ∉ topics { w with deviceID := d2 }
          (changeSensorStatus E state { w with deviceID := d2 })) ∧
      (∀ a ∈ topics { w with deviceID := d1 } (changeTwinValue E u { w with deviceID := d1 }),
        a ∉ topics { w with deviceID := d2 } (changeTwinValue E u { w with deviceID := d2 })) ∧
      (∀ a ∈ topics { w with deviceID := d1 } (syncToCloud E u { w with deviceID := d1 }),
        a ∉ topics { w with deviceID := d2 } (syncToCloud E u { w with deviceID := d2 }))) := by
  obtain ⟨s1, s2, s3⟩ := hS
  have hst : ∀ d, ∀ a ∈ topics { w with deviceID := d }
      (changeSensorStatus E state { w with deviceID := d }),
      a = w.Prefix ++ d ++ "/state/update" := by
    intro d a ha
    rw [changeSensorStatus_topics E state { w with deviceID := d } c hc a ha]
    simp only [s1]
  have htw : ∀ d, topics { w with deviceID := d }
      (changeTwinValue E u { w with deviceID := d }) = [w.Prefix ++ d ++ "/twin/update"] := by
    intro d
    rw [topics, changeTwinValue_publishes E u { w with deviceID := d } c hc]
    simp only [s2, List.map]
  have hcl : ∀ d, topics { w with deviceID := d }
      (syncToCloud E u { w with deviceID := d }) = [w.Prefix ++ d ++ "/twin/cloud_update"] := by
    intro d
    rw [topics, syncToCloud_publishes E u { w with deviceID := d } c hc]
    simp only [s3, List.map]
  refine ⟨⟨htw d1, hcl d2⟩, ?_, ?_, ?_⟩
  · intro a ha
    rw [hst d1 a ha, htw d2, hcl d2]
    simp only [List.mem_singleton]
    exact ⟨state_ne_twin _ _ _, state_ne_cloud _ _ _⟩
  · intro a ha
    rw [htw d1, List.mem_singleton] at ha
    rw [ha, hcl d2, List.mem_singleton]
    exact twin_ne_cloud _ _ _
  · intro hne
    refine ⟨?_, ?_, ?_⟩
    · intro a ha hb
      rw [hst d1 a ha] at hb
      exact hne (topic_injective _ _ _ _ (hst d2 _ hb))
    · intro a ha hb
      rw [htw d1, List.mem_singleton] at ha
      rw [htw d2, List.mem_singleton, ha] at hb
      exact hne (topic_injective _ _ _ _ hb)
    · intro a ha hb
      rw [hcl d1, List.mem_singleton] at ha
      rw [hcl d2, List.mem_singleton, ha] at hb
      exact hne (topic_injective _ _ _ _ hb)

/-- Witness of C10: the identifiers `a/twin` and `a`, whose topics would meet
if a suffix could be shifted into the identifier. -/
theorem topics_never_shared_witness :
    readyWorld.client =
      some (mqttConfig (Env.go keepAddress okBroker) "tcp://broker:1883" "dev-1" "" "") ∧
    readyWorld.declaredSuffixes ∧
    topics { readyWorld with deviceID := "a/twin" }
        (changeTwinValue (Env.go keepAddress okBroker) (createActualUpdateMessage "42.5")
          { readyWorld with deviceID := "a/twin" }) =
      [readyWorld.Prefix ++ "a/twin" ++ "/twin/update"] ∧
    topics { readyWorld with deviceID := "a" }
        (syncToCloud (Env.go keepAddress okBroker) (createActualUpdateMessage "42.5")
          { readyWorld with deviceID := "a" }) =
      [readyWorld.Prefix ++ "a" ++ "/twin/cloud_update"] :=
  ⟨rfl, ⟨rfl, rfl, rfl⟩,
    (topics_never_shared (Env.go keepAddress okBroker) readyWorld _ "a/twin" "a" "online"
      (createActualUpdateMessage "42.5") rfl ⟨rfl, rfl, rfl⟩).1⟩

/-- C1, evaluated where the code departs from it: the tag of `TwinValue.Value`
is `json:"value, omitempty"`, whose option is ` omitempty` with a leading
space, so the member is never omitted: a `TwinValue` with nil `Value` and nil
`Metadata` serializes to an object with the key `value` and the value null, also
inside a `MsgTwin`. The members with a well-formed `omitempty` are omitted: a
`MsgTwin` with every member nil serializes to the empty object. -/
theorem TwinValue_nil_Value_serialized_as_null :
    TwinValue.fValue.omitEmpty = false ∧
    TwinValue.fMetadata.omitEmpty = true ∧
    TwinValue.json { Value := none, Metadata := none } = "\x7b\"value\":null\x7d" ∧
    MsgTwin.json { Actual := some { Value := none, Metadata := none } } =
      "\x7b\"temperature\":\x7b\"value\":null\x7d\x7d" ∧
    MsgTwin.json {} = "\x7b\x7d" := by
  decide

set_option maxRecDepth 100000 in
/-- C2, evaluated at its scenario: after `Init("tcp://broker:1883", "dev-1", "",
"")`, `Update("42.5")` makes exactly two publishes, to the two twin topics of
`dev-1`, with one payload; the tag of `DeviceTwinUpdate.Twin` is `json:twin"`,
which is not a well-formed tag, so the key of the map is the Go name `Twin`:
the payload holds the expected text under the key `Twin` and does not hold it
under the lower-case key `twin`. -/
theorem Update_payload_has_key_Twin_not_twin :
    DeviceTwinUpdate.fTwin.key = "Twin" ∧
    publishes (added readyWorld (Update (Env.go keepAddress okBroker) "42.5" readyWorld)) =
      [("$hw/events/devicedev-1/twin/update",
        "\x7b\"event_id\":\"\",\"timestamp\":0,\"Twin\":\x7b\"CPU_Temperatur\":\x7b\"temperature\":\x7b\"value\":\"42.5\"\x7d,\"metadata\":\x7b\"type\":\"Updated\"\x7d\x7d\x7d\x7d"),
       ("$hw/events/devicedev-1/twin/cloud_update",
        "\x7b\"event_id\":\"\",\"timestamp\":0,\"Twin\":\x7b\"CPU_Temperatur\":\x7b\"temperature\":\x7b\"value\":\"42.5\"\x7d,\"metadata\":\x7b\"type\":\"Updated\"\x7d\x7d\x7d\x7d")] ∧
    ¬ containsText
      (bodyOf ((Env.go keepAddress okBroker).marshalTwin (createActualUpdateMessage "42.5")))
      "\"twin\":\x7b\"CPU_Temperatur\":\x7b\"temperature\":\x7b\"value\":\"42.5\"\x7d,\"metadata\":\x7b\"type\":\"Updated\"\x7d\x7d\x7d" ∧
    containsText
      (bodyOf ((Env.go keepAddress okBroker).marshalTwin (createActualUpdateMessage "42.5")))
      "\"Twin\":\x7b\"CPU_Temperatur\":\x7b\"temperature\":\x7b\"value\":\"42.5\"\x7d,\"metadata\":\x7b\"type\":\"Updated\"\x7d\x7d\x7d" := by
  refine ⟨by decide, by decide, ?_, ?_⟩
  · rw [containsText_iff]
    decide
  · rw [containsText_iff]
    decide

/-- C6: for every value `v`, the twin mapping of `createActualUpdateMessage v`
has exactly one entry, keyed `CPU_Temperatur`, whose twin has `actual.value = v`
with no value metadata, `metadata.type = "Updated"`, and no `optional`,
`expectedVersion` or `actualVersion`; the base message is left at its zero
value. -/
theorem createActualUpdateMessage_shape (v : String) :
    ∃ m : MsgTwin,
      (createActualUpdateMessage v).Twin = some [("CPU_Temperatur", some m)] ∧
      m.Actual = some { Value := some v, Metadata := none } ∧
      m.Metadata = some { Type_ := "Updated" } ∧
      m.Optional = none ∧ m.ExpectedVersion = none ∧ m.ActualVersion = none ∧
      (createActualUpdateMessage v).toBaseMessage = { EventID := "", Timestamp := 0 } :=
  ⟨_, rfl, rfl, rfl, rfl, rfl, rfl, rfl⟩

/-- C9: for all arguments (and whatever the library makes of the broker
address), the options built by `mqttConfig` carry a username exactly when
`user` is non-empty (and then it is `user`), and a password exactly when `user`
and `password` are both non-empty (and then it is `password`); `Init` builds its
options by `mqttConfig` from its own arguments and connects with them. -/
theorem mqttConfig_credentials (E : Env) (server clientID user password : String) :
    ((mqttConfig E server clientID user password).Username ≠ "" ↔ user ≠ "") ∧
    ((mqttConfig E server clientID user password).Password ≠ "" ↔
      (user ≠ "" ∧ password ≠ "")) ∧
    (mqttConfig E server clientID user password).Username = (if user ≠ "" then user else "") ∧
    (mqttConfig E server clientID user password).Password =
      (if user ≠ "" ∧ password ≠ "" then password else "") ∧
    (∀ (w : World),
      (Init E server clientID user password w).world.clientOpts =
        some (mqttConfig E server clientID user password) ∧
      Effect.connect (mqttConfig E server clientID user password) ∈
        added w (Init E server clientID user password w)) := by
  refine ⟨?_, ?_, ?_, ?_, ?_⟩
  · unfold mqttConfig
    cases hb : E.brokerURI server <;> by_cases hu : user = "" <;>
      by_cases hp : password = "" <;>
      simp [hb, hu, hp, ClientOptions.SetUsername, ClientOptions.SetPassword,
        ClientOptions.SetTLSConfig, ClientOptions.SetCleanSession, ClientOptions.SetClientID,
        ClientOptions.AddBroker]
  · unfold mqttConfig
    cases hb : E.brokerURI server <;> by_cases hu : user = "" <;>
      by_cases hp : password = "" <;>
      simp [hb, hu, hp, ClientOptions.SetUsername, ClientOptions.SetPassword,
        ClientOptions.SetTLSConfig, ClientOptions.SetCleanSession, ClientOptions.SetClientID,
        ClientOptions.AddBroker]
  · unfold mqttConfig
    cases hb : E.brokerURI server <;> by_cases hu : user = "" <;>
      by_cases hp : password = "" <;>
      simp [hb, hu, hp, ClientOptions.SetUsername, ClientOptions.SetPassword,
        ClientOptions.SetTLSConfig, ClientOptions.SetCleanSession, ClientOptions.SetClientID,
        ClientOptions.AddBroker]
  · unfold mqttConfig
    cases hb : E.brokerURI server <;> by_cases hu : user = "" <;>
      by_cases hp : password = "" <;>
      simp [hb, hu, hp, ClientOptions.SetUsername, ClientOptions.SetPassword,
        ClientOptions.SetTLSConfig, ClientOptions.SetCleanSession, ClientOptions.SetClientID,
        ClientOptions.AddBroker]
  · intro w
    refine ⟨(Init_world E server clientID user password w).2.2.1, ?_⟩
    unfold Init added
    simp only [World.emit]
    split_ifs <;> simp

/-- X1: for every device identifier `d` and every value `v` that needs no JSON
escaping, after `Init` with `d` on the declared variables, `Update v` with the
`encoding/json` serializer makes exactly two publishes, to
`"$hw/events/device" ++ d ++ "/twin/update"` and then to
`"$hw/events/device" ++ d ++ "/twin/cloud_update"`, each with the payload
`{"event_id":"","timestamp":0,"Twin":{"CPU_Temperatur":{"temperature":{"value":"v"},"metadata":{"type":"Updated"}}}}`,
whatever the broker answers. -/
theorem Update_publishes_plain_value (E0 : Env) (parse : String → Option String)
    (broker : List Effect → Token)
    (ipAddress d user password v : String) (w0 : World)
    (hv : ∀ c ∈ v.data, needsNoEscape c = true)
    (hP : w0.Prefix = "$hw/events/device") (hS : w0.declaredSuffixes) :
    publishes (added (Init E0 ipAddress d user password w0).world
        (Update (Env.go parse broker) v (Init E0 ipAddress d user password w0).world)) =
      [("$hw/events/device" ++ d ++ "/twin/update",
        "\x7b\"event_id\":\"\",\"timestamp\":0,\"Twin\":\x7b\"CPU_Temperatur\":\x7b\"temperature\":\x7b\"value\":\"" ++ v ++ "\"\x7d,\"metadata\":\x7b\"type\":\"Updated\"\x7d\x7d\x7d\x7d"),
       ("$hw/events/device" ++ d ++ "/twin/cloud_update",
        "\x7b\"event_id\":\"\",\"timestamp\":0,\"Twin\":\x7b\"CPU_Temperatur\":\x7b\"temperature\":\x7b\"value\":\"" ++ v ++ "\"\x7d,\"metadata\":\x7b\"type\":\"Updated\"\x7d\x7d\x7d\x7d")] := by
  obtain ⟨hd, hc, -, hp, -, h2, h3⟩ := Init_world E0 ipAddress d user password w0
  obtain ⟨-, s2, s3⟩ := hS
  generalize (Init E0 ipAddress d user password w0).world = w at hd hc hp h2 h3
  rw [Update_publishes (Env.go parse broker) v w _ hc, hd, hp, hP, h2, s2, h3, s3]
  have hb : bodyOf ((Env.go parse broker).marshalTwin (createActualUpdateMessage v)) =
      (createActualUpdateMessage v).json := rfl
  rw [hb, payload_of_plain_value v hv]

/-- Witness of X1: the value `42.5` for the device `dev-1`. -/
theorem Update_publishes_plain_value_witness :
    (∀ c ∈ "42.5".data, needsNoEscape c = true) ∧
    publishes (added readyWorld (Update (Env.go keepAddress errBroker) "42.5" readyWorld)) =
      [("$hw/events/device" ++ "dev-1" ++ "/twin/update",
        "\x7b\"event_id\":\"\",\"timestamp\":0,\"Twin\":\x7b\"CPU_Temperatur\":\x7b\"temperature\":\x7b\"value\":\"" ++ "42.5" ++ "\"\x7d,\"metadata\":\x7b\"type\":\"Updated\"\x7d\x7d\x7d\x7d"),
       ("$hw/events/device" ++ "dev-1" ++ "/twin/cloud_update",
        "\x7b\"event_id\":\"\",\"timestamp\":0,\"Twin\":\x7b\"CPU_Temperatur\":\x7b\"temperature\":\x7b\"value\":\"" ++ "42.5" ++ "\"\x7d,\"metadata\":\x7b\"type\":\"Updated\"\x7d\x7d\x7d\x7d")] :=
  ⟨by decide,
    Update_publishes_plain_value (Env.go keepAddress okBroker) keepAddress errBroker
      "tcp://broker:1883" "dev-1" "" ""
      "42.5" {} (by decide) rfl ⟨rfl, rfl, rfl⟩⟩

end KubeClient
